import Mathlib

deriving instance DecidableEq for Except

/-!
Shallow embedding of `simupy/systems/symbolic.py`.

The module defines `DynamicalSystem`, a container for a symbolic dynamical
system specification (state vector, input vector, state equation, output
equation, constants map, initial condition, `dt`), whose property setters
validate assignments and regenerate derived numeric artifacts, and its
subclass `MemorylessSystem` whose state setter rejects any non-`None` state.

Symbolic expressions (sympy) are embedded as the inductive `SymExpr`:
`dyn` constructors stand for `dynamicsymbols` (time-dependent symbols found
by `find_dynamicsymbols`), `sym` for plain `sp.Symbol` atoms, `timeSym` for
the distinguished `dynamicsymbols._t`.  In sympy, `expr.atoms(sp.Symbol)`
collects plain symbols together with the time symbol `t` (also from inside
applied dynamicsymbols `x(t)`); since the source's assertions always allow
`t` (`... | set([dynamicsymbols._t])`), the check
`atoms(Symbol) <= constants | {t}` is embedded as
`symAtoms ⊆ keys of constants_values` where `symAtoms` collects `sym`
atoms only.

The code generator (`lambdify_with_vector_args`, external to the source
slice) is embedded as the record `GenFunOf`: the ordered argument list and
the expression handed to the generator.  Applying a generated function
binds the argument symbols positionally and evaluates the expression,
mirroring the spec's contract for the Code Generator Adapter.

Python attribute semantics: attributes that may not yet exist
(`state_jacobian_equation`, the four `*_function` attributes) are
`Option`-valued, `none` meaning the attribute was never assigned; reading
a missing one raises `attributeError`.  A property setter mutates `self`
in place and may raise: setters are embedded as
`Sys → value → Sys × Option Err`, the returned `Sys` being the state of
the object after the call (including mutations committed before a raise).
-/

namespace SimupySym

/-- Symbolic expressions over numerals, the distinguished time symbol,
time-dependent dynamicsymbols (`dyn`), plain constants symbols (`sym`),
sums, products and negation. -/
inductive SymExpr where
  | num : ℚ → SymExpr
  | timeSym : SymExpr
  | dyn : String → SymExpr
  | sym : String → SymExpr
  | add : SymExpr → SymExpr → SymExpr
  | mul : SymExpr → SymExpr → SymExpr
  | neg : SymExpr → SymExpr
deriving DecidableEq, Repr

/-- The set (as a list, possibly with repeats) of time-dependent symbols of
an expression: embedding of sympy's `find_dynamicsymbols`. -/
def SymExpr.dynAtoms : SymExpr → List SymExpr
  | .dyn n => [.dyn n]
  | .add a b => a.dynAtoms ++ b.dynAtoms
  | .mul a b => a.dynAtoms ++ b.dynAtoms
  | .neg a => a.dynAtoms
  | _ => []

/-- The plain-`Symbol` atoms of an expression other than the always-allowed
time symbol: embedding of `expr.atoms(sp.Symbol)` minus `{dynamicsymbols._t}`. -/
def SymExpr.symAtoms : SymExpr → List String
  | .sym n => [n]
  | .add a b => a.symAtoms ++ b.symAtoms
  | .mul a b => a.symAtoms ++ b.symAtoms
  | .neg a => a.symAtoms
  | _ => []

/-- `dynAtoms` over a vector of expressions. -/
def dynAtomsVec (v : List SymExpr) : List SymExpr :=
  (v.map SymExpr.dynAtoms).flatten

/-- `symAtoms` over a vector of expressions. -/
def symAtomsVec (v : List SymExpr) : List String :=
  (v.map SymExpr.symAtoms).flatten

/-- Lookup in the constants map (first matching key wins, as in a dict). -/
def lookupConst : List (String × ℚ) → String → Option ℚ
  | [], _ => none
  | (k, q) :: rest, n => if k = n then some q else lookupConst rest n

/-- The keys of the constants map. -/
def constKeys (cv : List (String × ℚ)) : List String :=
  cv.map Prod.fst

/-- Substitution of the constants map into an expression: embedding of
`expr.subs(self.constants_values)` (only plain symbols are constants keys). -/
def SymExpr.subs (cv : List (String × ℚ)) : SymExpr → SymExpr
  | .num q => .num q
  | .timeSym => .timeSym
  | .dyn n => .dyn n
  | .sym n =>
    match lookupConst cv n with
    | some q => .num q
    | none => .sym n
  | .add a b => .add (a.subs cv) (b.subs cv)
  | .mul a b => .mul (a.subs cv) (b.subs cv)
  | .neg a => .neg (a.subs cv)

/-- Substitution over a vector of expressions. -/
def subsVec (cv : List (String × ℚ)) (v : List SymExpr) : List SymExpr :=
  v.map (SymExpr.subs cv)

/-- Substitution over a matrix of expressions. -/
def subsMat (cv : List (String × ℚ)) (m : List (List SymExpr)) : List (List SymExpr) :=
  m.map (subsVec cv)

/-- Symbolic partial derivative of an expression with respect to the
variable `v` (a state or input symbol). -/
def SymExpr.derivWrt (v : SymExpr) : SymExpr → SymExpr
  | .num _ => .num 0
  | .timeSym => if SymExpr.timeSym = v then .num 1 else .num 0
  | .dyn n => if SymExpr.dyn n = v then .num 1 else .num 0
  | .sym n => if SymExpr.sym n = v then .num 1 else .num 0
  | .add a b => .add (SymExpr.derivWrt v a) (SymExpr.derivWrt v b)
  | .mul a b => .add (.mul (SymExpr.derivWrt v a) b) (.mul a (SymExpr.derivWrt v b))
  | .neg a => .neg (SymExpr.derivWrt v a)

/-- Modelled from the spec: `grad` (imported from `simupy.utils.symbolic`,
not part of the source slice) computes the Jacobian matrix of the vector
expression `f` with respect to the variables `x`, with rows indexed by the
components of `f` and columns by the variables, as §4.2 of the spec fixes. -/
def grad (f : List SymExpr) (x : List SymExpr) : List (List SymExpr) :=
  f.map (fun fi => x.map (fun xj => SymExpr.derivWrt xj fi))

/-- A numeric callable produced by the Code Generator Adapter
(`lambdify_with_vector_args`, external): the record of the ordered
argument-symbol list and the (constants-substituted) expression it was
generated from. -/
structure GenFunOf (α : Type) where
  args : List SymExpr
  body : α
deriving DecidableEq, Repr

/-- A generated vector-valued function. -/
abbrev GenFun := GenFunOf (List SymExpr)

/-- A generated matrix-valued (Jacobian) function. -/
abbrev GenFunMat := GenFunOf (List (List SymExpr))

/-- Lookup of a symbol's bound value in a positional-argument environment. -/
def lookupVal : List (SymExpr × ℚ) → SymExpr → Option ℚ
  | [], _ => none
  | (k, q) :: rest, e => if k = e then some q else lookupVal rest e

/-- Numeric evaluation of an expression under a symbol environment. -/
def SymExpr.evalWith (env : List (SymExpr × ℚ)) : SymExpr → Option ℚ
  | .num q => some q
  | .timeSym => lookupVal env .timeSym
  | .dyn n => lookupVal env (.dyn n)
  | .sym n => lookupVal env (.sym n)
  | .add a b =>
    match a.evalWith env, b.evalWith env with
    | some x, some y => some (x + y)
    | _, _ => none
  | .mul a b =>
    match a.evalWith env, b.evalWith env with
    | some x, some y => some (x * y)
    | _, _ => none
  | .neg a => (a.evalWith env).map (fun x => -x)

/-- Numeric evaluation of a vector of expressions under an environment. -/
def evalList (env : List (SymExpr × ℚ)) : List SymExpr → Option (List ℚ)
  | [] => some []
  | e :: rest =>
    match e.evalWith env, evalList env rest with
    | some x, some xs => some (x :: xs)
    | _, _ => none

/-- Calling a generated vector-valued function on positional numeric
arguments: the arguments are bound to the argument symbols in order and
the recorded expression is evaluated. -/
def applyGen (f : GenFun) (vals : List ℚ) : Option (List ℚ) :=
  if f.args.length = vals.length then evalList (f.args.zip vals) f.body
  else none

/-- The error kinds of the validation layer, named as in §4.1/§4.6 of the
spec (the source raises `AssertionError`/`ValueError`; `attributeError`
models reading a never-assigned attribute). -/
inductive Err where
  | dimensionMismatch
  | undeclaredSymbol
  | unboundConstant
  | outputScopeViolation
  | invalidStateAssignment
  | attributeError
deriving DecidableEq, Repr

/-- The `DynamicalSystem` object: its attributes.  `Option`-valued fields
are attributes the constructor does not initialize directly and which may
therefore not exist yet. -/
structure Sys where
  constants_values : List (String × ℚ)
  _state : List SymExpr
  dim_state : Nat
  _inputs : List SymExpr
  dim_input : Nat
  _initial_condition : List ℚ
  _state_equation : List SymExpr
  state_jacobian_equation : Option (List (List SymExpr))
  input_jacobian_equation : Option (List (List SymExpr))
  _output_equation : List SymExpr
  dim_output : Nat
  state_equation_function : Option GenFun
  output_equation_function : Option GenFun
  state_jacobian_equation_function : Option GenFunMat
  input_jacobian_equation_function : Option GenFunMat
  dt : ℚ
  n_events : Nat
deriving DecidableEq, Repr

/-- A bare object before `__init__` runs: no attribute carries meaningful
data yet (list/number attributes are given throwaway defaults; the
`Option`-valued attributes are genuinely absent). -/
def blank : Sys where
  constants_values := []
  _state := []
  dim_state := 0
  _inputs := []
  dim_input := 0
  _initial_condition := []
  _state_equation := []
  state_jacobian_equation := none
  input_jacobian_equation := none
  _output_equation := []
  dim_output := 0
  state_equation_function := none
  output_equation_function := none
  state_jacobian_equation_function := none
  input_jacobian_equation_function := none
  dt := 0
  n_events := 0

/-- `DynamicalSystem.state` setter: `None` becomes the empty vector
(a bare scalar expression would be wrapped as a length-1 vector, which the
`Option (List _)` interface absorbs); `dim_state` and `_state` are updated,
no validation and no regeneration happen. -/
def Sys.set_state (s : Sys) (state : Option (List SymExpr)) : Sys × Option Err :=
  let st := state.getD []
  ({ s with dim_state := st.length, _state := st }, none)

/-- `DynamicalSystem.input` setter: `None` becomes the empty vector;
`dim_input` and `_inputs` are updated, no validation and no regeneration
happen. -/
def Sys.set_input (s : Sys) (input_ : Option (List SymExpr)) : Sys × Option Err :=
  let inp := input_.getD []
  ({ s with dim_input := inp.length, _inputs := inp }, none)

/-- `DynamicalSystem.initial_condition` setter: an explicit value must have
exactly `dim_state` entries, `None` yields the zero vector of length
`dim_state` (`np.zeros(self.dim_state)`). -/
def Sys.set_initial_condition (s : Sys) (ic : Option (List ℚ)) : Sys × Option Err :=
  match ic with
  | some v =>
    if v.length = s.dim_state then ({ s with _initial_condition := v }, none)
    else (s, some Err.dimensionMismatch)
  | none => ({ s with _initial_condition := List.replicate s.dim_state 0 }, none)

/-- `update_state_equation_function`: skipped when `dim_state` is zero;
otherwise the generator is invoked on the argument list
`[t] + flatten(state) + flatten(input)` and the constants-substituted
state equation. -/
def Sys.update_state_equation_function (s : Sys) : Sys :=
  if s.dim_state = 0 then s
  else
    let f : GenFun :=
      ⟨SymExpr.timeSym :: (s._state ++ s._inputs),
       subsVec s.constants_values s._state_equation⟩
    { s with state_equation_function := some f }

/-- `update_state_jacobian_function`: skipped when `dim_state` is zero;
otherwise the generator is invoked on `[t] + flatten(state) +
flatten(input)` and the constants-substituted state Jacobian.  (The `none`
branch models reading `self.state_jacobian_equation` before any
assignment; it is unreachable from the flows embedded here, which always
store the Jacobian first.) -/
def Sys.update_state_jacobian_function (s : Sys) : Sys :=
  if s.dim_state = 0 then s
  else
    match s.state_jacobian_equation with
    | none => s
    | some jac =>
      let f : GenFunMat :=
        ⟨SymExpr.timeSym :: (s._state ++ s._inputs), subsMat s.constants_values jac⟩
      { s with state_jacobian_equation_function := some f }

/-- `update_input_jacobian_function`: skipped when `dim_state` is zero;
otherwise the generator is invoked on `[t] + flatten(state) +
flatten(input)` and the constants-substituted input Jacobian. -/
def Sys.update_input_jacobian_function (s : Sys) : Sys :=
  if s.dim_state = 0 then s
  else
    match s.input_jacobian_equation with
    | none => s
    | some jac =>
      let f : GenFunMat :=
        ⟨SymExpr.timeSym :: (s._state ++ s._inputs), subsMat s.constants_values jac⟩
      { s with input_jacobian_equation_function := some f }

/-- `update_output_equation_function`: skipped when `dim_output` is zero;
otherwise the generator is invoked on `[t] + flatten(state)` when the
system is stateful, on `[t] + flatten(input)` otherwise, with the
constants-substituted output equation. -/
def Sys.update_output_equation_function (s : Sys) : Sys :=
  if s.dim_output = 0 then s
  else if s.dim_state ≠ 0 then
    let f : GenFun :=
      ⟨SymExpr.timeSym :: s._state, subsVec s.constants_values s._output_equation⟩
    { s with output_equation_function := some f }
  else
    let f : GenFun :=
      ⟨SymExpr.timeSym :: s._inputs, subsVec s.constants_values s._output_equation⟩
    { s with output_equation_function := some f }

/-- The tail of the `state_equation` setter after the checked value has
been stored: regenerate the state-equation function, derive and store both
symbolic Jacobians, regenerate both Jacobian functions. -/
def Sys.state_equation_stored (s : Sys) : Sys :=
  let s1 := s.update_state_equation_function
  let s2 := { s1 with state_jacobian_equation := some (grad s1._state_equation s1._state) }
  let s3 := s2.update_state_jacobian_function
  let s4 := { s3 with input_jacobian_equation := some (grad s3._state_equation s3._inputs) }
  s4.update_input_jacobian_function

/-- `DynamicalSystem.state_equation` setter: `None` becomes the empty
vector with no checks; otherwise in order: the length must equal the state
vector's length, the time-dependent symbols must lie in state ∪ input, the
plain symbols must lie in the constants map.  Only then is the equation
stored, and the derived artifacts regenerated. -/
def Sys.set_state_equation (s : Sys) (state_equation : Option (List SymExpr)) :
    Sys × Option Err :=
  match state_equation with
  | none => (({ s with _state_equation := [] }).state_equation_stored, none)
  | some se =>
    if se.length ≠ s._state.length then (s, some Err.dimensionMismatch)
    else if ¬ (∀ d ∈ dynAtomsVec se, d ∈ s._state ++ s._inputs) then
      (s, some Err.undeclaredSymbol)
    else if ¬ (∀ n ∈ symAtomsVec se, n ∈ constKeys s.constants_values) then
      (s, some Err.unboundConstant)
    else (({ s with _state_equation := se }).state_equation_stored, none)

/-- `DynamicalSystem.output_equation` setter: `None` becomes the state
vector; `dim_output` is committed BEFORE validation (as in the source);
then the plain symbols must lie in the constants map, and the
time-dependent symbols in the state vector (stateful) or in the input
vector (stateless); only then are the equation stored and the output
function regenerated. -/
def Sys.set_output_equation (s : Sys) (output_equation : Option (List SymExpr)) :
    Sys × Option Err :=
  let oe := output_equation.getD s._state
  let s1 := { s with dim_output := oe.length }
  if ¬ (∀ n ∈ symAtomsVec oe, n ∈ constKeys s1.constants_values) then
    (s1, some Err.unboundConstant)
  else if s1.dim_state ≠ 0 then
    if ¬ (∀ d ∈ dynAtomsVec oe, d ∈ s1._state) then
      (s1, some Err.outputScopeViolation)
    else (({ s1 with _output_equation := oe }).update_output_equation_function, none)
  else
    if ¬ (∀ d ∈ dynAtomsVec oe, d ∈ s1._inputs) then
      (s1, some Err.outputScopeViolation)
    else (({ s1 with _output_equation := oe }).update_output_equation_function, none)

/-- `MemorylessSystem.state` setter override: `None` becomes the empty
vector, any other value raises before anything is mutated. -/
def Sys.set_state_memoryless (s : Sys) (state : Option (List SymExpr)) :
    Sys × Option Err :=
  match state with
  | none => ({ s with dim_state := 0, _state := [] }, none)
  | some _ => (s, some Err.invalidStateAssignment)

/-- The shared tail of `DynamicalSystem.__init__` after the state
assignment: initial condition, input, (code generator: fixed here), state
equation, output equation, `dt`, `n_events`, each raised error aborting
the constructor. -/
def ctorRest (s1 : Sys) (state_equation input_ output_equation : Option (List SymExpr))
    (initial_condition : Option (List ℚ)) (dt : ℚ) : Except Err Sys :=
  match s1.set_initial_condition initial_condition with
  | (_, some e) => Except.error e
  | (s2, none) =>
    match s2.set_input input_ with
    | (_, some e) => Except.error e
    | (s3, none) =>
      match s3.set_state_equation state_equation with
      | (_, some e) => Except.error e
      | (s4, none) =>
        match s4.set_output_equation output_equation with
        | (_, some e) => Except.error e
        | (s5, none) => Except.ok { s5 with dt := dt, n_events := 0 }

/-- `DynamicalSystem.__init__`: assignments run in source order —
constants, state, initial condition, input, state equation, output
equation, `dt`, `n_events`. -/
def mkSys (state_equation state input_ output_equation : Option (List SymExpr))
    (constants_values : List (String × ℚ)) (dt : ℚ)
    (initial_condition : Option (List ℚ)) : Except Err Sys :=
  let s0 := { blank with constants_values := constants_values }
  match s0.set_state state with
  | (_, some e) => Except.error e
  | (s1, none) => ctorRest s1 state_equation input_ output_equation initial_condition dt

/-- `MemorylessSystem.__init__`: the same constructor body, but the
overridden state setter runs (keyword arguments can still carry every
base-constructor parameter). -/
def mkMemoryless (input_ output_equation : Option (List SymExpr))
    (state_equation state : Option (List SymExpr))
    (constants_values : List (String × ℚ)) (dt : ℚ)
    (initial_condition : Option (List ℚ)) : Except Err Sys :=
  let s0 := { blank with constants_values := constants_values }
  match s0.set_state_memoryless state with
  | (_, some e) => Except.error e
  | (s1, none) => ctorRest s1 state_equation input_ output_equation initial_condition dt

/-- The reconstruction performed by `copy`: the constructor re-run on the
source's symbolic specification (equations, vectors, constants, `dt`; no
initial condition is passed). -/
def Sys.reconstruct (s : Sys) : Except Err Sys :=
  mkSys (some s._state_equation) (some s._state) (some s._inputs)
    (some s._output_equation) s.constants_values s.dt none

/-- `DynamicalSystem.copy`: reconstruct from the symbolic specification,
then overwrite the copy's output- and state-equation functions with the
source's own callables (reading a source attribute that was never
generated raises). -/
def Sys.copy (s : Sys) : Except Err Sys :=
  match s.reconstruct with
  | Except.error e => Except.error e
  | Except.ok c =>
    match s.output_equation_function, s.state_equation_function with
    | some fo, some fs =>
      Except.ok { c with output_equation_function := some fo,
                         state_equation_function := some fs }
    | _, _ => Except.error Err.attributeError

/-- A symbolic solution: a mapping from state symbols to expressions, as
returned by `sp.solve(..., dict=True)`. -/
abbrev Solution := List (SymExpr × SymExpr)

/-- `DynamicalSystem.equilibrium_points`: forwards to the external symbolic
solver (`sp.solve`, here the parameter `solver`) applied to the state
equation and the state vector; the `input_` parameter is not used. -/
def Sys.equilibrium_points (s : Sys)
    (solver : List SymExpr → List SymExpr → List Solution)
    (input_ : Option (List ℚ)) : List Solution :=
  solver s._state_equation s._state

/-- The argument list a generated function was compiled for (`[]` when the
attribute is absent). -/
def genArgs (o : Option GenFun) : List SymExpr :=
  match o with
  | some f => f.args
  | none => []

/-- Calling a system's `output_equation_function` on positional numeric
arguments (`none` when the attribute is absent). -/
def callOutput (s : Sys) (vals : List ℚ) : Option (List ℚ) :=
  match s.output_equation_function with
  | none => none
  | some f => applyGen f vals

/-- A concrete stateful system: state `[x]`, state equation `[-x]`, no
input, default (identity) output. -/
def demo1 : Except Err Sys :=
  mkSys (some [SymExpr.neg (SymExpr.dyn "x")]) (some [SymExpr.dyn "x"]) none none [] 0 none

/-- The successfully constructed `demo1` instance. -/
def demo1s : Sys := demo1.toOption.getD blank

/-- `demo1s` after the state vector is reassigned to `[y]`. -/
def stale1 : Sys := (demo1s.set_state (some [SymExpr.dyn "y"])).1

/-- A concrete stateless system: input `[u]`, output `[u]`. -/
def demo0 : Except Err Sys :=
  mkSys none none (some [SymExpr.dyn "u"]) (some [SymExpr.dyn "u"]) [] 0 none

/-- The successfully constructed `demo0` instance. -/
def demo0s : Sys := demo0.toOption.getD blank

/-- A concrete system with state `[x]`, input `[u]`, constant `a = 2`,
state equation `[a·x]`, default output. -/
def demoIn : Except Err Sys :=
  mkSys (some [SymExpr.mul (SymExpr.sym "a") (SymExpr.dyn "x")]) (some [SymExpr.dyn "x"])
    (some [SymExpr.dyn "u"]) none [("a", 2)] 0 none

/-- The successfully constructed `demoIn` instance. -/
def demoInS : Sys := demoIn.toOption.getD blank

/-- A concrete memoryless system: input `[u]`, output `[u]`. -/
def demoM : Except Err Sys :=
  mkMemoryless (some [SymExpr.dyn "u"]) (some [SymExpr.dyn "u"]) none none [] 0 none

/-- The successfully constructed `demoM` instance. -/
def demoMs : Sys := demoM.toOption.getD blank

/-- The copy of `demoInS`. -/
def demoCopyC : Sys := (demoInS.copy).toOption.getD blank

/-- The bare reconstruction of `demoInS`. -/
def demoCopyC0 : Sys := (demoInS.reconstruct).toOption.getD blank

/-- C1 (counterexample).  On the concretely constructed system `demo1s`
(state `[x]`, state equation `[-x]`), reassigning the state vector to `[y]`
leaves both the state-equation function and the output-equation function
exactly as they were, and their argument lists no longer match the
currently stored vectors: the setter did not regenerate them, contrary to
the claim. -/
theorem state_setter_leaves_stale_functions :
    demo1 = Except.ok demo1s ∧
    stale1._state = [SymExpr.dyn "y"] ∧
    stale1.state_equation_function = demo1s.state_equation_function ∧
    stale1.output_equation_function = demo1s.output_equation_function ∧
    genArgs stale1.state_equation_function ≠
      SymExpr.timeSym :: (stale1._state ++ stale1._inputs) ∧
    genArgs stale1.output_equation_function ≠ SymExpr.timeSym :: stale1._state := by
  decide

/-- C1 (amended).  The state and input setters update only the stored
vector and its dimension; they perform no validation and regenerate no
derived numeric artifact, so a callable generated earlier can be stale
with respect to the newly stored vectors; regeneration happens only when
`state_equation` or `output_equation` is assigned. -/
theorem state_input_setters_do_not_regenerate (s : Sys) (v : Option (List SymExpr)) :
    (s.set_state v).2 = none ∧
    (s.set_state v).1._state = v.getD [] ∧
    (s.set_state v).1.dim_state = (v.getD []).length ∧
    (s.set_state v).1.state_equation_function = s.state_equation_function ∧
    (s.set_state v).1.output_equation_function = s.output_equation_function ∧
    (s.set_state v).1.state_jacobian_equation_function = s.state_jacobian_equation_function ∧
    (s.set_state v).1.input_jacobian_equation_function = s.input_jacobian_equation_function ∧
    (s.set_input v).2 = none ∧
    (s.set_input v).1._inputs = v.getD [] ∧
    (s.set_input v).1.dim_input = (v.getD []).length ∧
    (s.set_input v).1.state_equation_function = s.state_equation_function ∧
    (s.set_input v).1.output_equation_function = s.output_equation_function ∧
    (s.set_input v).1.state_jacobian_equation_function = s.state_jacobian_equation_function ∧
    (s.set_input v).1.input_jacobian_equation_function = s.input_jacobian_equation_function :=
  ⟨rfl, rfl, rfl, rfl, rfl, rfl, rfl, rfl, rfl, rfl, rfl, rfl, rfl, rfl⟩

/-- C2 (counterexample).  On `demo1s` (where `dim_output = 1`), assigning
the invalid output equation `[c, c]` (`c` is not a declared constant)
fails, yet `dim_output` has been mutated to `2`: a failed assignment
commits partial state, contrary to the claim. -/
theorem output_failure_commits_dim_output :
    (demo1s.set_output_equation (some [SymExpr.sym "c", SymExpr.sym "c"])).2 ≠ none ∧
    (demo1s.set_output_equation (some [SymExpr.sym "c", SymExpr.sym "c"])).1.dim_output = 2 ∧
    demo1s.dim_output = 1 := by
  decide

/-- C2 (amended).  A failed `state_equation` or `initial_condition`
assignment commits nothing (the object is unchanged); `state` and `input`
assignments never fail; but a failed `output_equation` assignment commits
`dim_output = length of the attempted value` before validating, leaving
every other field at its previous value. -/
theorem failed_assignments_commit_only_dim_output (s : Sys) (v : List SymExpr)
    (ic : List ℚ) (st : Option (List SymExpr)) :
    ((s.set_state_equation (some v)).2 ≠ none → (s.set_state_equation (some v)).1 = s) ∧
    ((s.set_initial_condition (some ic)).2 ≠ none → (s.set_initial_condition (some ic)).1 = s) ∧
    (s.set_state st).2 = none ∧
    (s.set_input st).2 = none ∧
    ((s.set_output_equation (some v)).2 ≠ none →
      (s.set_output_equation (some v)).1 = { s with dim_output := v.length }) := by
  refine ⟨?_, ?_, rfl, rfl, ?_⟩
  · intro h
    simp only [Sys.set_state_equation] at h ⊢
    split_ifs at h ⊢ <;> first | rfl | simp at h
  · intro h
    simp only [Sys.set_initial_condition] at h ⊢
    split_ifs at h ⊢ <;> first | rfl | simp at h
  · intro h
    simp only [Sys.set_output_equation, Option.getD] at h ⊢
    split_ifs at h ⊢ <;> first | rfl | simp at h

/-- C2 (witness): the amended theorem applied on `demo1s` to a state
equation of mismatched length and to an output equation with an unbound
constant symbol. -/
theorem failed_assignments_commit_only_dim_output_witness :
    (demo1s.set_state_equation (some [])).1 = demo1s ∧
    (demo1s.set_output_equation (some [SymExpr.sym "c"])).1 =
      { demo1s with dim_output := 1 } :=
  ⟨(failed_assignments_commit_only_dim_output demo1s [] [] none).1 (by decide),
   (failed_assignments_commit_only_dim_output demo1s [SymExpr.sym "c"] [] none).2.2.2.2
     (by decide)⟩

/-- C6.  Assigning a non-`None` state equation whose length differs from
the stored state vector's length fails with `DimensionMismatch` and stores
nothing: the object is returned unchanged. -/
theorem state_equation_length_mismatch_rejected (s : Sys) (v : List SymExpr)
    (h : v.length ≠ s._state.length) :
    s.set_state_equation (some v) = (s, some Err.dimensionMismatch) := by
  simp only [Sys.set_state_equation]
  rw [if_pos h]

/-- C6 (witness): on `demo1s` (one state symbol), assigning the empty
state equation fails with `DimensionMismatch`. -/
theorem state_equation_length_mismatch_rejected_witness :
    ([] : List SymExpr).length ≠ demo1s._state.length ∧
    demo1s.set_state_equation (some []) = (demo1s, some Err.dimensionMismatch) :=
  ⟨by decide, state_equation_length_mismatch_rejected demo1s [] (by decide)⟩

/-- C7.  Assigning a non-`None` state equation containing a time-dependent
symbol outside state ∪ input always fails and stores nothing; when the
length check also passes, the reported error is `UndeclaredSymbol`. -/
theorem state_equation_undeclared_symbol_rejected (s : Sys) (v : List SymExpr)
    (d : SymExpr) (hd : d ∈ dynAtomsVec v) (hni : d ∉ s._state ++ s._inputs) :
    (s.set_state_equation (some v)).2 ≠ none ∧
    (s.set_state_equation (some v)).1 = s ∧
    (v.length = s._state.length →
      s.set_state_equation (some v) = (s, some Err.undeclaredSymbol)) := by
  have hall : ¬ (∀ e ∈ dynAtomsVec v, e ∈ s._state ++ s._inputs) :=
    fun hall => hni (hall d hd)
  simp only [Sys.set_state_equation]
  split_ifs with h1
  · exact ⟨by simp, rfl, fun hl => absurd hl h1⟩
  · exact ⟨by simp, rfl, fun _ => rfl⟩

/-- C7 (witness): on `demo1s` (state `[x]`, no input), assigning the state
equation `[z]` for an undeclared dynamicsymbol `z` fails with
`UndeclaredSymbol`. -/
theorem state_equation_undeclared_symbol_rejected_witness :
    SymExpr.dyn "z" ∈ dynAtomsVec [SymExpr.dyn "z"] ∧
    SymExpr.dyn "z" ∉ demo1s._state ++ demo1s._inputs ∧
    (demo1s.set_state_equation (some [SymExpr.dyn "z"])).2 ≠ none ∧
    (demo1s.set_state_equation (some [SymExpr.dyn "z"])).1 = demo1s ∧
    ([SymExpr.dyn "z"].length = demo1s._state.length →
      demo1s.set_state_equation (some [SymExpr.dyn "z"]) =
        (demo1s, some Err.undeclaredSymbol)) :=
  ⟨by decide, by decide,
   state_equation_undeclared_symbol_rejected demo1s [SymExpr.dyn "z"] (SymExpr.dyn "z")
     (by decide) (by decide)⟩

/-- A successful non-`None` `state_equation` assignment stores the equation
and runs the regeneration cascade. -/
theorem set_state_equation_ok_eq (s : Sys) (v : List SymExpr)
    (h : (s.set_state_equation (some v)).2 = none) :
    s.set_state_equation (some v) =
      (({ s with _state_equation := v }).state_equation_stored, none) := by
  simp only [Sys.set_state_equation] at h ⊢
  split_ifs at h ⊢ <;> simp_all

/-- A successful non-`None` `output_equation` assignment stores `dim_output`
and the equation and regenerates the output function. -/
theorem set_output_equation_ok_eq (s : Sys) (w : List SymExpr)
    (h : (s.set_output_equation (some w)).2 = none) :
    s.set_output_equation (some w) =
      (({ s with dim_output := w.length,
                 _output_equation := w }).update_output_equation_function, none) := by
  simp only [Sys.set_output_equation, Option.getD] at h ⊢
  split_ifs at h ⊢ <;> simp_all

/-- C3 (counterexample).  On the concrete stateless system `demo0s`
(no state, input `[u]`, output `[u]`), construction succeeds and both
symbolic Jacobians HAVE been derived and stored (contrary to the claim
that neither is derived), while — as the claim also says — none of
`state_equation_function`, `state_jacobian_equation_function`,
`input_jacobian_equation_function` is generated. -/
theorem stateless_jacobians_still_derived :
    demo0 = Except.ok demo0s ∧
    demo0s.dim_state = 0 ∧
    demo0s.state_jacobian_equation ≠ none ∧
    demo0s.input_jacobian_equation ≠ none ∧
    demo0s.state_jacobian_equation = some (grad demo0s._state_equation demo0s._state) ∧
    demo0s.input_jacobian_equation = some (grad demo0s._state_equation demo0s._inputs) ∧
    demo0s.state_equation_function = none ∧
    demo0s.state_jacobian_equation_function = none ∧
    demo0s.input_jacobian_equation_function = none := by
  decide

/-- C3 (amended).  If `dim_state` is zero when the state equation is
assigned, no numeric function is generated (`state_equation_function`,
`state_jacobian_equation_function` and `input_jacobian_equation_function`
are left exactly as they were), but the symbolic Jacobians are still
derived and stored (as the trivially empty `grad` of the stored equation
over state resp. input). -/
theorem stateless_assignment_skips_codegen_only (s : Sys)
    (v : Option (List SymExpr)) (h : s.dim_state = 0) :
    (s.set_state_equation v).1.state_equation_function = s.state_equation_function ∧
    (s.set_state_equation v).1.state_jacobian_equation_function =
      s.state_jacobian_equation_function ∧
    (s.set_state_equation v).1.input_jacobian_equation_function =
      s.input_jacobian_equation_function ∧
    ((s.set_state_equation v).2 = none →
      (s.set_state_equation v).1.state_jacobian_equation =
        some (grad (s.set_state_equation v).1._state_equation s._state) ∧
      (s.set_state_equation v).1.input_jacobian_equation =
        some (grad (s.set_state_equation v).1._state_equation s._inputs)) := by
  cases v with
  | none =>
    simp [Sys.set_state_equation, Sys.state_equation_stored,
      Sys.update_state_equation_function, Sys.update_state_jacobian_function,
      Sys.update_input_jacobian_function, h]
  | some se =>
    simp only [Sys.set_state_equation]
    split_ifs <;>
      simp [Sys.state_equation_stored, Sys.update_state_equation_function,
        Sys.update_state_jacobian_function, Sys.update_input_jacobian_function, h]

/-- C3 (witness): the amended theorem applied on the stateless `demo0s`
with a `None` state-equation assignment. -/
theorem stateless_assignment_skips_codegen_only_witness :
    demo0s.dim_state = 0 ∧
    ((demo0s.set_state_equation none).1.state_equation_function =
        demo0s.state_equation_function ∧
      (demo0s.set_state_equation none).1.state_jacobian_equation_function =
        demo0s.state_jacobian_equation_function ∧
      (demo0s.set_state_equation none).1.input_jacobian_equation_function =
        demo0s.input_jacobian_equation_function ∧
      ((demo0s.set_state_equation none).2 = none →
        (demo0s.set_state_equation none).1.state_jacobian_equation =
          some (grad (demo0s.set_state_equation none).1._state_equation demo0s._state) ∧
        (demo0s.set_state_equation none).1.input_jacobian_equation =
          some (grad (demo0s.set_state_equation none).1._state_equation demo0s._inputs))) :=
  ⟨by decide, stateless_assignment_skips_codegen_only demo0s none (by decide)⟩

/-- C5.  Every generated numeric artifact receives the constants-substituted
expression, and the adapter is invoked with the fixed argument ordering:
`(t, *state, *input)` for the state-equation function and both Jacobian
functions, `(t, *state)` for the output function of a stateful system and
`(t, *input)` for a stateless one. -/
theorem codegen_fixed_args_and_substituted_constants (s : Sys) (v w : List SymExpr)
    (h1 : (s.set_state_equation (some v)).2 = none)
    (h2 : (s.set_output_equation (some w)).2 = none)
    (hw : w ≠ []) :
    (s.dim_state ≠ 0 →
      (s.set_state_equation (some v)).1.state_equation_function =
        some ⟨SymExpr.timeSym :: (s._state ++ s._inputs), subsVec s.constants_values v⟩ ∧
      (s.set_state_equation (some v)).1.state_jacobian_equation_function =
        some ⟨SymExpr.timeSym :: (s._state ++ s._inputs),
              subsMat s.constants_values (grad v s._state)⟩ ∧
      (s.set_state_equation (some v)).1.input_jacobian_equation_function =
        some ⟨SymExpr.timeSym :: (s._state ++ s._inputs),
              subsMat s.constants_values (grad v s._inputs)⟩ ∧
      (s.set_output_equation (some w)).1.output_equation_function =
        some ⟨SymExpr.timeSym :: s._state, subsVec s.constants_values w⟩) ∧
    (s.dim_state = 0 →
      (s.set_output_equation (some w)).1.output_equation_function =
        some ⟨SymExpr.timeSym :: s._inputs, subsVec s.constants_values w⟩) := by
  have hw0 : ¬ w.length = 0 := fun hl => hw (List.length_eq_zero.mp hl)
  rw [set_state_equation_ok_eq s v h1, set_output_equation_ok_eq s w h2]
  constructor
  · intro hd
    refine ⟨?_, ?_, ?_, ?_⟩ <;>
      simp [Sys.state_equation_stored, Sys.update_state_equation_function,
        Sys.update_state_jacobian_function, Sys.update_input_jacobian_function,
        Sys.update_output_equation_function, hd, hw0]
  · intro hd0
    simp [Sys.update_output_equation_function, hd0, hw0]

/-- C5 (witness): the theorem applied on `demoInS` (state `[x]`, input
`[u]`, constant `a = 2`), assigning the state equation `[a·x]` and the
output equation `[x]`. -/
theorem codegen_fixed_args_and_substituted_constants_witness :
    (demoInS.set_state_equation
        (some [SymExpr.mul (SymExpr.sym "a") (SymExpr.dyn "x")])).2 = none ∧
    (demoInS.set_output_equation (some [SymExpr.dyn "x"])).2 = none ∧
    ([SymExpr.dyn "x"] : List SymExpr) ≠ [] ∧
    ((demoInS.dim_state ≠ 0 →
      (demoInS.set_state_equation
          (some [SymExpr.mul (SymExpr.sym "a") (SymExpr.dyn "x")])).1.state_equation_function =
        some ⟨SymExpr.timeSym :: (demoInS._state ++ demoInS._inputs),
              subsVec demoInS.constants_values
                [SymExpr.mul (SymExpr.sym "a") (SymExpr.dyn "x")]⟩ ∧
      (demoInS.set_state_equation
          (some [SymExpr.mul (SymExpr.sym "a") (SymExpr.dyn "x")])).1.state_jacobian_equation_function =
        some ⟨SymExpr.timeSym :: (demoInS._state ++ demoInS._inputs),
              subsMat demoInS.constants_values
                (grad [SymExpr.mul (SymExpr.sym "a") (SymExpr.dyn "x")] demoInS._state)⟩ ∧
      (demoInS.set_state_equation
          (some [SymExpr.mul (SymExpr.sym "a") (SymExpr.dyn "x")])).1.input_jacobian_equation_function =
        some ⟨SymExpr.timeSym :: (demoInS._state ++ demoInS._inputs),
              subsMat demoInS.constants_values
                (grad [SymExpr.mul (SymExpr.sym "a") (SymExpr.dyn "x")] demoInS._inputs)⟩ ∧
      (demoInS.set_output_equation (some [SymExpr.dyn "x"])).1.output_equation_function =
        some ⟨SymExpr.timeSym :: demoInS._state,
              subsVec demoInS.constants_values [SymExpr.dyn "x"]⟩) ∧
    (demoInS.dim_state = 0 →
      (demoInS.set_output_equation (some [SymExpr.dyn "x"])).1.output_equation_function =
        some ⟨SymExpr.timeSym :: demoInS._inputs,
              subsVec demoInS.constants_values [SymExpr.dyn "x"]⟩)) :=
  ⟨by decide, by decide, by decide,
   codegen_fixed_args_and_substituted_constants demoInS
     [SymExpr.mul (SymExpr.sym "a") (SymExpr.dyn "x")] [SymExpr.dyn "x"]
     (by decide) (by decide) (by decide)⟩

/-- The regeneration cascade touches only equation/function fields. -/
theorem state_equation_stored_frame (s : Sys) :
    (s.state_equation_stored)._state = s._state ∧
    (s.state_equation_stored).dim_state = s.dim_state ∧
    (s.state_equation_stored)._inputs = s._inputs ∧
    (s.state_equation_stored).dim_input = s.dim_input ∧
    (s.state_equation_stored)._initial_condition = s._initial_condition ∧
    (s.state_equation_stored).constants_values = s.constants_values := by
  simp only [Sys.state_equation_stored, Sys.update_state_equation_function,
    Sys.update_state_jacobian_function, Sys.update_input_jacobian_function]
  split_ifs <;> simp

/-- The `state_equation` setter touches only equation/function fields. -/
theorem set_state_equation_frame (s : Sys) (v : Option (List SymExpr)) :
    (s.set_state_equation v).1._state = s._state ∧
    (s.set_state_equation v).1.dim_state = s.dim_state ∧
    (s.set_state_equation v).1._inputs = s._inputs ∧
    (s.set_state_equation v).1.dim_input = s.dim_input ∧
    (s.set_state_equation v).1._initial_condition = s._initial_condition ∧
    (s.set_state_equation v).1.constants_values = s.constants_values := by
  cases v with
  | none => simp [Sys.set_state_equation, state_equation_stored_frame]
  | some se =>
    simp only [Sys.set_state_equation]
    split_ifs <;> simp [state_equation_stored_frame]

/-- The `output_equation` setter touches only `dim_output`, the stored
output equation and the output function. -/
theorem set_output_equation_frame (s : Sys) (v : Option (List SymExpr)) :
    (s.set_output_equation v).1._state = s._state ∧
    (s.set_output_equation v).1.dim_state = s.dim_state ∧
    (s.set_output_equation v).1._inputs = s._inputs ∧
    (s.set_output_equation v).1.dim_input = s.dim_input ∧
    (s.set_output_equation v).1._initial_condition = s._initial_condition ∧
    (s.set_output_equation v).1.constants_values = s.constants_values := by
  simp only [Sys.set_output_equation, Sys.update_output_equation_function]
  split_ifs <;> simp

/-- The `initial_condition` setter touches only `_initial_condition`. -/
theorem set_initial_condition_frame (s : Sys) (ic : Option (List ℚ)) :
    (s.set_initial_condition ic).1._state = s._state ∧
    (s.set_initial_condition ic).1.dim_state = s.dim_state ∧
    (s.set_initial_condition ic).1._inputs = s._inputs ∧
    (s.set_initial_condition ic).1.dim_input = s.dim_input ∧
    (s.set_initial_condition ic).1.constants_values = s.constants_values := by
  cases ic with
  | none => simp [Sys.set_initial_condition]
  | some v =>
    simp only [Sys.set_initial_condition]
    split_ifs <;> simp

/-- A successful constructor tail preserves the state vector, `dim_state`
and the constants of the object it started from, and — when no initial
condition was passed — leaves the default zero initial condition. -/
theorem ctorRest_ok_core (s1 : Sys) (se inp oe : Option (List SymExpr))
    (ic : Option (List ℚ)) (dtv : ℚ) (m : Sys)
    (h : ctorRest s1 se inp oe ic dtv = Except.ok m) :
    m._state = s1._state ∧ m.dim_state = s1.dim_state ∧
    (ic = none → m._initial_condition = List.replicate s1.dim_state 0) := by
  unfold ctorRest at h
  cases h2 : s1.set_initial_condition ic with
  | mk s2 e2 =>
    rw [h2] at h
    cases e2 with
    | some e => simp at h
    | none =>
      simp only [Except.ok.injEq] at h
      cases h3 : s2.set_input inp with
      | mk s3 e3 =>
        rw [h3] at h
        cases e3 with
        | some e => simp at h
        | none =>
          simp only [Except.ok.injEq] at h
          cases h4 : s3.set_state_equation se with
          | mk s4 e4 =>
            rw [h4] at h
            cases e4 with
            | some e => simp at h
            | none =>
              simp only [Except.ok.injEq] at h
              cases h5 : s4.set_output_equation oe with
              | mk s5 e5 =>
                rw [h5] at h
                cases e5 with
                | some e => simp at h
                | none =>
                  simp only [Except.ok.injEq] at h
                  subst h
                  have f5 := set_output_equation_frame s4 oe
                  rw [h5] at f5
                  have f4 := set_state_equation_frame s3 se
                  rw [h4] at f4
                  have f2 := set_initial_condition_frame s1 ic
                  rw [h2] at f2
                  have hs3 :
                      s3 = { s2 with dim_input := (inp.getD []).length, _inputs := inp.getD [] } := by
                    have hh := congrArg Prod.fst h3
                    simpa [Sys.set_input] using hh.symm
                  refine ⟨?_, ?_, ?_⟩
                  · exact (f5.1.trans f4.1).trans
                      (show s3._state = s1._state by rw [hs3]; exact f2.1)
                  · exact (f5.2.1.trans f4.2.1).trans
                      (show s3.dim_state = s1.dim_state by rw [hs3]; exact f2.2.1)
                  · intro hic
                    subst hic
                    have hs2 :
                        s2 = { s1 with _initial_condition := List.replicate s1.dim_state 0 } := by
                      have hh := congrArg Prod.fst h2
                      simpa [Sys.set_initial_condition] using hh.symm
                    exact (f5.2.2.2.2.1.trans f4.2.2.2.2.1).trans
                      (show s3._initial_condition = List.replicate s1.dim_state 0 by
                        rw [hs3, hs2])

/-- C9.  The memoryless state setter rejects any non-`None` state with
`InvalidStateAssignment`, leaving the object unchanged; assigning `None`
stores the empty state; no other setter touches the state vector or
`dim_state`; and any successfully constructed memoryless instance has an
empty state vector and `dim_state = 0`. -/
theorem memoryless_state_always_empty (s : Sys) (v : List SymExpr) (hv : v ≠ [])
    (ie oe se st : Option (List SymExpr)) (ic : Option (List ℚ))
    (cv : List (String × ℚ)) (dtv : ℚ) (m : Sys) :
    s.set_state_memoryless (some v) = (s, some Err.invalidStateAssignment) ∧
    (s.set_state_memoryless none).1._state = [] ∧
    (s.set_state_memoryless none).1.dim_state = 0 ∧
    (s.set_input ie).1._state = s._state ∧
    (s.set_input ie).1.dim_state = s.dim_state ∧
    (s.set_initial_condition ic).1._state = s._state ∧
    (s.set_initial_condition ic).1.dim_state = s.dim_state ∧
    (s.set_state_equation se).1._state = s._state ∧
    (s.set_state_equation se).1.dim_state = s.dim_state ∧
    (s.set_output_equation oe).1._state = s._state ∧
    (s.set_output_equation oe).1.dim_state = s.dim_state ∧
    (mkMemoryless ie oe se st cv dtv ic = Except.ok m →
      m._state = [] ∧ m.dim_state = 0) := by
  refine ⟨rfl, rfl, rfl, rfl, rfl,
    (set_initial_condition_frame s ic).1, (set_initial_condition_frame s ic).2.1,
    (set_state_equation_frame s se).1, (set_state_equation_frame s se).2.1,
    (set_output_equation_frame s oe).1, (set_output_equation_frame s oe).2.1, ?_⟩
  intro hm
  cases st with
  | some stv => simp [mkMemoryless, Sys.set_state_memoryless] at hm
  | none =>
    simp only [mkMemoryless, Sys.set_state_memoryless] at hm
    obtain ⟨h1, h2, _⟩ := ctorRest_ok_core _ _ _ _ _ _ _ hm
    exact ⟨h1.trans rfl, h2.trans rfl⟩

/-- C9 (witness): the theorem applied on the memoryless instance `demoMs`
with the non-empty state `[x]` and the constructor arguments that built
`demoMs`. -/
theorem memoryless_state_always_empty_witness :
    demoMs.set_state_memoryless (some [SymExpr.dyn "x"]) =
      (demoMs, some Err.invalidStateAssignment) ∧
    (demoMs.set_state_memoryless none).1._state = [] ∧
    (demoMs.set_state_memoryless none).1.dim_state = 0 ∧
    (demoMs.set_input (some [SymExpr.dyn "u"])).1._state = demoMs._state ∧
    (demoMs.set_input (some [SymExpr.dyn "u"])).1.dim_state = demoMs.dim_state ∧
    (demoMs.set_initial_condition none).1._state = demoMs._state ∧
    (demoMs.set_initial_condition none).1.dim_state = demoMs.dim_state ∧
    (demoMs.set_state_equation none).1._state = demoMs._state ∧
    (demoMs.set_state_equation none).1.dim_state = demoMs.dim_state ∧
    (demoMs.set_output_equation (some [SymExpr.dyn "u"])).1._state = demoMs._state ∧
    (demoMs.set_output_equation (some [SymExpr.dyn "u"])).1.dim_state = demoMs.dim_state ∧
    (mkMemoryless (some [SymExpr.dyn "u"]) (some [SymExpr.dyn "u"]) none none [] 0 none =
        Except.ok demoMs →
      demoMs._state = [] ∧ demoMs.dim_state = 0) :=
  memoryless_state_always_empty demoMs [SymExpr.dyn "x"] (by decide)
    (some [SymExpr.dyn "u"]) (some [SymExpr.dyn "u"]) none none none [] 0 demoMs

/-- A system constructed with no initial condition carries the default
zero initial condition of length `dim_state`. -/
theorem mkSys_ok_default_ic (se st inp oe : Option (List SymExpr))
    (cv : List (String × ℚ)) (dtv : ℚ) (m : Sys)
    (h : mkSys se st inp oe cv dtv none = Except.ok m) :
    m._initial_condition = List.replicate m.dim_state 0 := by
  simp only [mkSys, Sys.set_state] at h
  obtain ⟨_, h2, h3⟩ := ctorRest_ok_core _ _ _ _ _ _ _ h
  rw [h3 rfl, h2]

/-- C4.  A successful `copy` shares the source's output- and
state-equation callables, while its Jacobian callables and its initial
condition come from the reconstruction; in particular the copy's initial
condition is the reconstruction default, the zero vector of length
`dim_state`, regardless of the source's initial condition. -/
theorem copy_shares_output_state_functions (s c c0 : Sys)
    (h : s.copy = Except.ok c) (h0 : s.reconstruct = Except.ok c0) :
    c.output_equation_function = s.output_equation_function ∧
    c.state_equation_function = s.state_equation_function ∧
    c.state_jacobian_equation_function = c0.state_jacobian_equation_function ∧
    c.input_jacobian_equation_function = c0.input_jacobian_equation_function ∧
    c._initial_condition = c0._initial_condition ∧
    c._initial_condition = List.replicate c.dim_state 0 := by
  unfold Sys.copy at h
  rw [h0] at h
  cases hfo : s.output_equation_function with
  | none =>
    rw [hfo] at h
    cases s.state_equation_function <;> simp at h
  | some fo =>
    rw [hfo] at h
    cases hfs : s.state_equation_function with
    | none => rw [hfs] at h; simp at h
    | some fs =>
      rw [hfs] at h
      simp only [Except.ok.injEq] at h
      subst h
      have hic := mkSys_ok_default_ic _ _ _ _ _ _ c0 (by
        rw [← h0]; rfl)
      exact ⟨rfl, rfl, rfl, rfl, rfl, hic⟩

/-- C4 (witness): the theorem applied on `demoInS` and its concrete copy
and reconstruction. -/
theorem copy_shares_output_state_functions_witness :
    demoInS.copy = Except.ok demoCopyC ∧
    demoInS.reconstruct = Except.ok demoCopyC0 ∧
    (demoCopyC.output_equation_function = demoInS.output_equation_function ∧
      demoCopyC.state_equation_function = demoInS.state_equation_function ∧
      demoCopyC.state_jacobian_equation_function =
        demoCopyC0.state_jacobian_equation_function ∧
      demoCopyC.input_jacobian_equation_function =
        demoCopyC0.input_jacobian_equation_function ∧
      demoCopyC._initial_condition = demoCopyC0._initial_condition ∧
      demoCopyC._initial_condition = List.replicate demoCopyC.dim_state 0) :=
  ⟨by decide, by decide,
   copy_shares_output_state_functions demoInS demoCopyC demoCopyC0 (by decide) (by decide)⟩

/-- A vector of dynamicsymbols has no plain-symbol atoms. -/
theorem symAtomsVec_map_dyn (ns : List String) :
    symAtomsVec (ns.map SymExpr.dyn) = [] := by
  induction ns with
  | nil => rfl
  | cons n t ih => simpa [symAtomsVec, SymExpr.symAtoms] using ih

/-- The dynamicsymbols of a vector of dynamicsymbols are the vector itself. -/
theorem dynAtomsVec_map_dyn (ns : List String) :
    dynAtomsVec (ns.map SymExpr.dyn) = ns.map SymExpr.dyn := by
  induction ns with
  | nil => rfl
  | cons n t ih => simpa [dynAtomsVec, SymExpr.dynAtoms] using ih

/-- Constants substitution does not touch dynamicsymbols. -/
theorem subsVec_map_dyn (cv : List (String × ℚ)) (ns : List String) :
    subsVec cv (ns.map SymExpr.dyn) = ns.map SymExpr.dyn := by
  induction ns with
  | nil => rfl
  | cons n t ih => simpa [subsVec, SymExpr.subs] using ih

/-- Lookup skips a prefix that does not mention the key. -/
theorem lookupVal_append_right (pre l : List (SymExpr × ℚ)) (e : SymExpr)
    (h : ∀ p ∈ pre, p.1 ≠ e) :
    lookupVal (pre ++ l) e = lookupVal l e := by
  induction pre with
  | nil => rfl
  | cons p t ih =>
    obtain ⟨k, q⟩ := p
    have hk : k ≠ e := h (k, q) (by simp)
    simp only [List.cons_append, lookupVal, if_neg hk]
    exact ih (fun p hp => h p (List.mem_cons_of_mem _ hp))

/-- Evaluating a vector of distinct dynamicsymbols in an environment that
binds them positionally (after an irrelevant prefix) returns the bound
values. -/
theorem evalList_lookup_dyn (ns : List String) (xs : List ℚ)
    (pre : List (SymExpr × ℚ)) (hnd : ns.Nodup) (hlen : xs.length = ns.length)
    (hpre : ∀ p ∈ pre, ∀ n ∈ ns, p.1 ≠ SymExpr.dyn n) :
    evalList (pre ++ (ns.map SymExpr.dyn).zip xs) (ns.map SymExpr.dyn) = some xs := by
  induction ns generalizing xs pre with
  | nil =>
    cases xs with
    | nil => rfl
    | cons x xs => simp at hlen
  | cons n t ih =>
    cases xs with
    | nil => simp at hlen
    | cons x xs =>
      have hlen2 : xs.length = t.length := by simpa using hlen
      have hnodup := List.nodup_cons.mp hnd
      have hhead :
          lookupVal (pre ++ (SymExpr.dyn n, x) :: (t.map SymExpr.dyn).zip xs)
            (SymExpr.dyn n) = some x := by
        rw [lookupVal_append_right _ _ _ (fun p hp => hpre p hp n (by simp))]
        simp [lookupVal]
      have htail :
          evalList ((pre ++ [(SymExpr.dyn n, x)]) ++ (t.map SymExpr.dyn).zip xs)
            (t.map SymExpr.dyn) = some xs := by
        refine ih xs (pre ++ [(SymExpr.dyn n, x)]) hnodup.2 hlen2 ?_
        intro p hp m hm
        rcases List.mem_append.mp hp with hp1 | hp2
        · exact hpre p hp1 m (List.mem_cons_of_mem _ hm)
        · have hpe : p = (SymExpr.dyn n, x) := by simpa using hp2
          subst hpe
          intro hEq
          have hnm : n = m := SymExpr.dyn.inj hEq
          exact hnodup.1 (by rw [hnm]; exact hm)
      simp only [List.map_cons, List.zip_cons_cons, evalList, SymExpr.evalWith]
      rw [hhead]
      rw [show pre ++ (SymExpr.dyn n, x) :: (t.map SymExpr.dyn).zip xs
            = (pre ++ [(SymExpr.dyn n, x)]) ++ (t.map SymExpr.dyn).zip xs by simp]
      rw [htail]

/-- `update_output_equation_function` touches no stored field. -/
theorem update_output_equation_function_fields (s : Sys) :
    (s.update_output_equation_function)._output_equation = s._output_equation ∧
    (s.update_output_equation_function)._state = s._state ∧
    (s.update_output_equation_function)._inputs = s._inputs ∧
    (s.update_output_equation_function).constants_values = s.constants_values := by
  unfold Sys.update_output_equation_function
  split_ifs <;> simp

/-- The output function generated for a stateful system with a non-empty
output. -/
theorem update_output_equation_function_value (s : Sys)
    (h0 : ¬ s.dim_output = 0) (h1 : s.dim_state ≠ 0) :
    (s.update_output_equation_function).output_equation_function =
      some ⟨SymExpr.timeSym :: s._state,
            subsVec s.constants_values s._output_equation⟩ := by
  unfold Sys.update_output_equation_function
  rw [if_neg h0, if_pos h1]

/-- C8.  On a stateful system whose state vector is a non-empty vector of
distinct dynamicsymbols, assigning `None` as output equation succeeds,
stores the state vector itself as the output equation, and the generated
output function is the identity on the state: evaluating it at
`(t0, x1 .. xn)` returns `(x1 .. xn)`. -/
theorem default_output_is_identity (s : Sys) (ns : List String) (t0 : ℚ)
    (xs : List ℚ) (hst : s._state = ns.map SymExpr.dyn) (hnd : ns.Nodup)
    (hne : ns ≠ []) (hds : s.dim_state ≠ 0) (hlen : xs.length = ns.length) :
    (s.set_output_equation none).2 = none ∧
    (s.set_output_equation none).1._output_equation = s._state ∧
    callOutput (s.set_output_equation none).1 (t0 :: xs) = some xs := by
  have hsym : ∀ n ∈ symAtomsVec s._state, n ∈ constKeys s.constants_values := by
    rw [hst, symAtomsVec_map_dyn]
    intro n hn
    exact absurd hn (List.not_mem_nil n)
  have hdyn : ∀ d ∈ dynAtomsVec s._state, d ∈ s._state := by
    rw [hst, dynAtomsVec_map_dyn]
    intro d hd
    exact hd
  have hlen0 : s._state.length ≠ 0 := by
    rw [hst, List.length_map]
    exact fun hl => hne (List.length_eq_zero.mp hl)
  simp only [Sys.set_output_equation, Option.getD]
  split_ifs
  refine ⟨rfl, (update_output_equation_function_fields _).1, ?_⟩
  have hfn := update_output_equation_function_value
    { s with dim_output := s._state.length, _output_equation := s._state }
    (by exact hlen0) (by exact hds)
  simp only [callOutput, hfn]
  show applyGen ⟨SymExpr.timeSym :: s._state, subsVec s.constants_values s._state⟩
      (t0 :: xs) = some xs
  rw [hst, subsVec_map_dyn]
  simp only [applyGen]
  rw [if_pos (by simp [hlen])]
  simp only [List.zip_cons_cons]
  have hmain := evalList_lookup_dyn ns xs [(SymExpr.timeSym, t0)] hnd hlen (by
    intro p hp m hm
    have hpe : p = (SymExpr.timeSym, t0) := by simpa using hp
    subst hpe
    simp)
  simpa using hmain

/-- C8 (witness): the theorem applied on `demo1s` (state `[x]`) at the
sample point `t0 = 5`, `x = [7]`. -/
theorem default_output_is_identity_witness :
    demo1s._state = (["x"].map SymExpr.dyn) ∧
    (["x"] : List String).Nodup ∧
    (["x"] : List String) ≠ [] ∧
    demo1s.dim_state ≠ 0 ∧
    ([(7 : ℚ)]).length = (["x"] : List String).length ∧
    ((demo1s.set_output_equation none).2 = none ∧
      (demo1s.set_output_equation none).1._output_equation = demo1s._state ∧
      callOutput (demo1s.set_output_equation none).1 ((5 : ℚ) :: [7]) = some [7]) :=
  ⟨by decide, by decide, by decide, by decide, by decide,
   default_output_is_identity demo1s ["x"] 5 [7] (by decide) (by decide) (by decide)
     (by decide) (by decide)⟩

/-- C10.  `equilibrium_points` ignores its `input_` argument entirely: for
any two input values it returns the same result, namely the external
symbolic solver applied to the state equation and the state vector. -/
theorem equilibrium_points_ignores_input (s : Sys)
    (solver : List SymExpr → List SymExpr → List Solution)
    (i1 i2 : Option (List ℚ)) :
    s.equilibrium_points solver i1 = s.equilibrium_points solver i2 ∧
    s.equilibrium_points solver i1 = solver s._state_equation s._state :=
  ⟨rfl, rfl⟩

end SimupySym
